import Mathlib

/-!
Verification of the focusd multichannel focuser daemon against its
specification.

The development embeds the repository sources, rockit/focuser/constants.py
and rockit/focuser/multichannel/config.py, as Lean definitions, together
with a model of the Command Dispatcher and Control Loop that the
specification describes (that part of the daemon is not among the provided
sources, so it is modelled from the specification text, as marked on each
such definition), and proves properties of the embedded definitions.
-/

namespace Focusd

/-! Status codes: the CommandStatus class of constants.py. -/

namespace CommandStatus

/-- Numeric return code: class attribute Succeeded = 0 in constants.py. -/
def Succeeded : Int := 0

/-- Numeric return code: class attribute Failed = 1 in constants.py. -/
def Failed : Int := 1

/-- Numeric return code: class attribute Blocked = 2 in constants.py. -/
def Blocked : Int := 2

/-- Numeric return code: class attribute InvalidControlIP = 3 in constants.py. -/
def InvalidControlIP : Int := 3

/-- Numeric return code: class attribute InvalidChannel = 4 in constants.py. -/
def InvalidChannel : Int := 4

/-- Numeric return code: class attribute PositionOutsideLimits = 6 in constants.py. -/
def PositionOutsideLimits : Int := 6

/-- Numeric return code: class attribute NotConnected = 7 in constants.py. -/
def NotConnected : Int := 7

/-- Numeric return code: class attribute NotDisconnected = 8 in constants.py.
The associated message in the messages table reads, in full,
error: focuser is already connected. -/
def NotDisconnected : Int := 8

/-- Code attribute names of the CommandStatus class body in constants.py,
with their values, in source order. -/
def codeNames : List (String × Int) :=
  [("Succeeded", 0), ("Failed", 1), ("Blocked", 2), ("InvalidControlIP", 3),
   ("InvalidChannel", 4), ("PositionOutsideLimits", 6), ("NotConnected", 7),
   ("NotDisconnected", 8)]

/-- Message table of CommandStatus in constants.py (the class attribute
written there with a leading underscore, which Lean does not allow in a
declaration name). -/
def messages : List (Int × String) :=
  [(1, "error: command failed"),
   (2, "error: another command is already running"),
   (3, "error: command not accepted from this IP"),
   (4, "error: invalid channel"),
   (6, "error: requested position outside channel range"),
   (7, "error: focuser is not connected"),
   (8, "error: focuser is already connected"),
   (-100, "error: terminated by user"),
   (-101, "error: unable to communicate with focus daemon")]

/-- Returns a human readable string describing an error code:
CommandStatus.message in constants.py. The source returns the table entry
when the code is a key of the table and otherwise formats the code into a
fixed fallback text. -/
def message (error_code : Int) : String :=
  match messages.lookup error_code with
  | some m => m
  | none => "error: Unknown error code " ++ toString error_code

end CommandStatus

/-! Terminal formatting constants. TFmt is imported by constants.py from
the external warwick.observatory.common dependency, which is not part of
this repository; the claims depend only on each status having an
associated emphasis string, not on the byte values, so the conventional
ANSI escape codes are used here. -/

namespace TFmt

/-- Bold terminal attribute of the external TFmt helper. -/
def Bold : String := "\x1b[1m"

/-- Red terminal attribute of the external TFmt helper. -/
def Red : String := "\x1b[91m"

/-- Clear terminal attribute of the external TFmt helper. -/
def Clear : String := "\x1b[0m"

end TFmt

/-! Hardware status labels: the FocuserStatus class of constants.py. -/

namespace FocuserStatus

/-- Status value Disabled of FocuserStatus in constants.py (first element
of range(2)). -/
def Disabled : Int := 0

/-- Status value Active of FocuserStatus in constants.py (second element
of range(2)). -/
def Active : Int := 1

/-- Label table of FocuserStatus in constants.py. -/
def labels : List (Int × String) :=
  [(0, "OFFLINE"), (1, "ONLINE")]

/-- Format table of FocuserStatus in constants.py. -/
def formats : List (Int × String) :=
  [(0, TFmt.Bold ++ TFmt.Red), (1, TFmt.Bold)]

/-- Returns a human readable string describing a status: FocuserStatus.label
in constants.py. The source guards the formatted branch by testing
membership of the status in the formats table (twice, a benign repetition)
and then indexes both tables directly; since the two tables bind exactly
the same keys 0 and 1, the unguarded labels access always succeeds and is
modelled here with a default value that is never used. -/
def label (status : Int) (formatting : Bool) : String :=
  if formatting then
    if ((formats.lookup status).isSome && (formats.lookup status).isSome) then
      (formats.lookup status).getD "" ++ (labels.lookup status).getD "" ++ TFmt.Clear
    else
      TFmt.Red ++ TFmt.Bold ++ "UNKNOWN" ++ TFmt.Clear
  else
    match labels.lookup status with
    | some l => l
    | none => "UNKNOWN"

end FocuserStatus

/-! Configuration: multichannel/config.py. The config file is parsed by
the standard json module into a document value; the document is modelled
by the Json type below, with numbers carried as exact rationals so that
integral and non-integral values are distinguished, as Python does. -/

/-- JSON document values as produced by json.load. -/
inductive Json where
  | str : String → Json
  | num : Rat → Json
  | bool : Bool → Json
  | null : Json
  | arr : List Json → Json
  | obj : List (String × Json) → Json

/-- Member access on a JSON object by key; none when the value is not an
object or lacks the key. -/
def Json.lookup : Json → String → Option Json
  | .obj kvs, k => kvs.lookup k
  | _, _ => none

/-- String payload of a JSON value, if any. -/
def Json.getStr : Json → Option String
  | .str s => some s
  | _ => none

/-- Numeric payload of a JSON value, if any. -/
def Json.getNum : Json → Option Rat
  | .num q => some q
  | _ => none

/-- Elements of a JSON array of strings, if the value has that shape. -/
def Json.getStrList : Json → Option (List String)
  | .arr xs => xs.mapM Json.getStr
  | _ => none

/-- Python int() applied to an exact number: truncation toward zero. -/
def pyInt (q : Rat) : Int := q.num.tdiv (q.den : Int)

/-- Required top level keys of CONFIG_SCHEMA in multichannel/config.py;
temperature_probes is optional. -/
def requiredKeys : List String :=
  ["daemon", "log_name", "control_machines", "serial_port", "serial_baud",
   "serial_timeout", "channels", "idle_loop_delay", "moving_loop_delay",
   "move_timeout"]

/-- Schema constraint: a number with a lower bound (the min keyword of
CONFIG_SCHEMA). -/
def checkNumMin (lo : Rat) : Json → Bool
  | .num q => decide (lo ≤ q)
  | _ => false

/-- Schema constraint: a number with lower and upper bounds (the min and
max keywords of CONFIG_SCHEMA). -/
def checkNumRange (lo hi : Rat) : Json → Bool
  | .num q => decide (lo ≤ q) && decide (q ≤ hi)
  | _ => false

/-- Schema constraint: a string (possibly further restricted by a custom
validator supplied by the caller, as for daemon_name and machine_name). -/
def checkStr (extra : String → Bool) : Json → Bool
  | .str s => extra s
  | _ => false

/-- Schema constraint for one entry of the temperature_probes object in
CONFIG_SCHEMA: an object with exactly the required keys label (a string)
and address (a string of exactly 16 characters, minLength and maxLength
both 16), additional properties forbidden. -/
def checkProbe : Json → Bool
  | .obj kvs =>
    kvs.all (fun kv => kv.1 == "label" || kv.1 == "address") &&
    (match kvs.lookup "label" with
     | some (.str _) => true
     | _ => false) &&
    (match kvs.lookup "address" with
     | some (.str a) => a.length == 16
     | _ => false)
  | _ => false

/-- Schema constraint for the temperature_probes property of CONFIG_SCHEMA:
an object whose every member value satisfies the probe schema. -/
def checkProbes : Json → Bool
  | .obj kvs => kvs.all (fun kv => checkProbe kv.2)
  | _ => false

/-- Schema constraint for the control_machines property of CONFIG_SCHEMA:
an array of strings, each accepted by the machine_name validator. -/
def checkMachines (mn : String → Bool) : Json → Bool
  | .arr xs => xs.all (checkStr mn)
  | _ => false

/-- Constraint of CONFIG_SCHEMA for one named top level property; false
for a key the schema does not declare (additionalProperties is False).
The daemon_name and machine_name validators live in the external
rockit.common library and are abstracted as the parameters dn and mn. -/
def checkProperty (dn mn : String → Bool) (key : String) (v : Json) : Bool :=
  if key == "daemon" then checkStr dn v
  else if key == "log_name" then checkStr (fun _ => true) v
  else if key == "control_machines" then checkMachines mn v
  else if key == "serial_port" then checkStr (fun _ => true) v
  else if key == "serial_baud" then checkNumRange 115200 115200 v
  else if key == "serial_timeout" then checkNumMin 0 v
  else if key == "channels" then checkNumMin 1 v
  else if key == "idle_loop_delay" then checkNumMin 0 v
  else if key == "moving_loop_delay" then checkNumMin 0 v
  else if key == "move_timeout" then checkNumMin 0 v
  else if key == "temperature_probes" then checkProbes v
  else false

/-- Validation of a parsed document against CONFIG_SCHEMA in
multichannel/config.py: the document is an object, every required key is
present, and every member satisfies the constraint of its key. -/
def validateConfig (dn mn : String → Bool) : Json → Bool
  | .obj kvs =>
    requiredKeys.all (fun k => (kvs.lookup k).isSome) &&
    kvs.all (fun kv => checkProperty dn mn kv.1 kv.2)
  | _ => false

/-- Daemon configuration parsed from a json file: the attributes that
Config.__init__ in multichannel/config.py stores. The daemon and
control_ips attributes hold objects obtained by attribute lookup on
external registries (daemons and IP of rockit.common); they are modelled
by the looked up names themselves. -/
structure Config where
  daemon : String
  log_name : String
  control_ips : List String
  serial_port : String
  serial_baud : Int
  serial_timeout : Int
  channels : Rat
  idle_loop_delay : Int
  moving_loop_delay : Int
  move_timeout : Int
  temperature_probes : Json

/-- Attribute extraction of Config.__init__ in multichannel/config.py,
applied after schema validation has succeeded: serial_baud,
serial_timeout, idle_loop_delay, moving_loop_delay and move_timeout pass
through int(); channels and temperature_probes are stored as read, the
latter defaulting to the empty object when the optional key is absent. -/
def Config.ofValidated (kvs : List (String × Json)) : Option Config := do
  let daemon ← (kvs.lookup "daemon").bind Json.getStr
  let log_name ← (kvs.lookup "log_name").bind Json.getStr
  let machines ← (kvs.lookup "control_machines").bind Json.getStrList
  let serial_port ← (kvs.lookup "serial_port").bind Json.getStr
  let serial_baud ← (kvs.lookup "serial_baud").bind Json.getNum
  let serial_timeout ← (kvs.lookup "serial_timeout").bind Json.getNum
  let channels ← (kvs.lookup "channels").bind Json.getNum
  let idle_loop_delay ← (kvs.lookup "idle_loop_delay").bind Json.getNum
  let moving_loop_delay ← (kvs.lookup "moving_loop_delay").bind Json.getNum
  let move_timeout ← (kvs.lookup "move_timeout").bind Json.getNum
  some {
    daemon := daemon
    log_name := log_name
    control_ips := machines
    serial_port := serial_port
    serial_baud := pyInt serial_baud
    serial_timeout := pyInt serial_timeout
    channels := channels
    idle_loop_delay := pyInt idle_loop_delay
    moving_loop_delay := pyInt moving_loop_delay
    move_timeout := pyInt move_timeout
    temperature_probes := (kvs.lookup "temperature_probes").getD (.obj []) }

/-- Config constructor, Config.__init__ in multichannel/config.py, on an
already parsed document: validation throws on a schema violation (modelled
by the error result), otherwise the attributes are extracted. Reading the
file and parsing the JSON, which also raise on failure, happen before this
point and are outside the model. The inner extraction cannot fail on a
validated document; its fallback error arm is unreachable. -/
def Config.init (dn mn : String → Bool) (j : Json) : Except String Config :=
  if validateConfig dn mn j then
    match j with
    | .obj kvs =>
      match Config.ofValidated kvs with
      | some c => .ok c
      | none => .error "invalid config"
    | _ => .error "invalid config"
  else
    .error "invalid config"

/-! Command Dispatcher and Control Loop. The daemon script that implements
them is not among the provided sources (only constants.py and
multichannel/config.py are); the definitions below are therefore modelled
from the specification, sections 4.2, 4.3 and 5, and marked as such. Every
operation returns the CommandStatus code together with the state after the
call and the list of serial transactions issued, so that the theorems can
speak about state changes and about commands reaching the Serial
Transport. -/

/-- Modelled from the spec: a transaction issued on the Serial Transport by
the missing daemon script (section 4.1 and 4.3): opening or closing the
link, the move command starting a motion, a position poll of the moving
loop, and the halt command of stop and of best effort stopping during
disconnect. -/
inductive SerialCmd where
  | openCmd : SerialCmd
  | closeCmd : SerialCmd
  | moveCmd : Nat → Int → SerialCmd
  | pollCmd : Nat → SerialCmd
  | stopCmd : Nat → SerialCmd
  deriving Repr, DecidableEq

/-- Modelled from the spec: the per channel record of the missing daemon
script (section 3, Channel): current position, target position, moving
flag and soft limits. -/
structure Channel where
  position : Int
  target : Option Int
  moving : Bool
  limMin : Int
  limMax : Int
  deriving Repr, DecidableEq

/-- Modelled from the spec: the daemon state of the missing daemon script
as seen by arriving requests (sections 4.3 and 5): whether the transport
is connected, whether a mutating command (move, connect or disconnect) is
currently in flight, and the channel records. In flight mutating work is
a single slot, the busy flag, because the dispatcher serializes against
one logical busy or idle state for the whole daemon. -/
structure DaemonState where
  connected : Bool
  busy : Bool
  channels : List Channel
  deriving Repr, DecidableEq

/-- Modelled from the spec: number of mutating operations in flight in a
state, read off the single busy slot. -/
def DaemonState.inFlight (s : DaemonState) : Nat :=
  if s.busy then 1 else 0

/-- Modelled from the spec: one entry of the read only status snapshot
(section 4.2, status), holding the channel position and moving flag. -/
structure ChannelStatus where
  position : Int
  moving : Bool
  deriving Repr, DecidableEq

/-- Modelled from the spec: the read only status command (section 4.2): a
snapshot of all channel state, never blocking and issuing no serial
transaction. Probe readings are omitted, no claim concerns them. -/
def statusSnapshot (s : DaemonState) : List ChannelStatus × DaemonState × List SerialCmd :=
  (s.channels.map (fun c => { position := c.position, moving := c.moving }), s, [])

/-- Modelled from the spec: the moving phase of the Control Loop
(section 4.3) driving one accepted move. The loop polls the hardware
position once per iteration (readback i is the value the hardware reports
on the i-th poll), finishes with Succeeded when a readback equals the
target, and finishes with Failed when the poll budget, the number of
moving cadence iterations that fit into move_timeout, is exhausted first,
leaving the last successful readback as the recorded position. The result
carries the final status code, the recorded position and the serial polls
issued. -/
def moveLoop (ch : Nat) (target : Int) (pos : Int) (readback : Nat → Int) :
    Nat → Nat → Int × Int × List SerialCmd
  | _, 0 => (CommandStatus.Failed, pos, [])
  | i, fuel + 1 =>
    let p := readback i
    if p = target then
      (CommandStatus.Succeeded, p, [SerialCmd.pollCmd ch])
    else
      let r := moveLoop ch target p readback (i + 1) fuel
      (r.1, r.2.1, SerialCmd.pollCmd ch :: r.2.2)

/-- Modelled from the spec: the move command (sections 4.2, 4.3 and 5).
Requests are gated in arrival order: a mutating command already in flight
yields Blocked immediately (section 5), a command arriving while not
connected yields NotConnected without touching hardware (section 4.2),
then the channel index is validated against the configured channel count
(else InvalidChannel) and the requested position against the soft limits
of that channel (else PositionOutsideLimits), all before any serial
transaction. An accepted move issues the serial move command, hands
control to the Control Loop until it settles or the poll budget runs out,
and returns with the channel record updated to the final readback, the
target cleared and the moving flag reset, the state a caller observes
after the blocking call returns. -/
def move (s : DaemonState) (channel : Nat) (position : Int)
    (readback : Nat → Int) (fuel : Nat) : Int × DaemonState × List SerialCmd :=
  if s.busy then (CommandStatus.Blocked, s, [])
  else if !s.connected then (CommandStatus.NotConnected, s, [])
  else
    match s.channels[channel]? with
    | none => (CommandStatus.InvalidChannel, s, [])
    | some ch =>
      if position < ch.limMin || ch.limMax < position then
        (CommandStatus.PositionOutsideLimits, s, [])
      else
        let r := moveLoop channel position ch.position readback 0 fuel
        let done := { ch with position := r.2.1, target := none, moving := false }
        (r.1, { s with channels := s.channels.set channel done },
         SerialCmd.moveCmd channel position :: r.2.2)

/-- Modelled from the spec: the connect command (section 4.2): Blocked when
a mutating command is in flight, a failure when the transport is already
open (the code the constants module assigns to that condition is 8),
otherwise the transport is opened and channel state initialized for all
configured channels, supplied here as the init argument. -/
def connect (s : DaemonState) (init : List Channel) : Int × DaemonState × List SerialCmd :=
  if s.busy then (CommandStatus.Blocked, s, [])
  else if s.connected then (CommandStatus.NotDisconnected, s, [])
  else
    (CommandStatus.Succeeded,
     { connected := true, busy := false, channels := init },
     [SerialCmd.openCmd])

/-- Modelled from the spec: the disconnect command (section 4.2): Blocked
when a mutating command is in flight, NotConnected when the transport is
not open, otherwise any in flight move is stopped best effort, the
transport is closed and the channel state cleared. -/
def disconnect (s : DaemonState) : Int × DaemonState × List SerialCmd :=
  if s.busy then (CommandStatus.Blocked, s, [])
  else if !s.connected then (CommandStatus.NotConnected, s, [])
  else
    (CommandStatus.Succeeded,
     { connected := false, busy := false, channels := [] },
     (if s.channels.any (fun c => c.moving) then
        (List.range s.channels.length).filterMap
          (fun i => if (s.channels[i]?.map (fun c => c.moving)).getD false then
            some (SerialCmd.stopCmd i) else none)
      else []) ++ [SerialCmd.closeCmd])

/-- Modelled from the spec: the stop command (sections 4.2 and 5): not a
mutating command, so it is serviced concurrently with an in flight move
and is not gated by the busy slot; while not connected it yields
NotConnected (section 4.2); on a moving channel it issues the halt and
clears the moving flag and target; on a channel that is not moving it is
a no-op returning Succeeded. -/
def stop (s : DaemonState) (channel : Nat) : Int × DaemonState × List SerialCmd :=
  if !s.connected then (CommandStatus.NotConnected, s, [])
  else
    match s.channels[channel]? with
    | some ch =>
      if ch.moving then
        let halted := { ch with moving := false, target := none }
        (CommandStatus.Succeeded,
         { s with channels := s.channels.set channel halted },
         [SerialCmd.stopCmd channel])
      else (CommandStatus.Succeeded, s, [])
    | none => (CommandStatus.Succeeded, s, [])

/-! Concrete fixtures used by the witness and counterexample theorems. -/

/-- Example channel record within soft limits 0 to 10000, idle at
position 0. -/
def chanA : Channel :=
  { position := 0, target := none, moving := false, limMin := 0, limMax := 10000 }

/-- Example channel record with soft limits 0 to 10000, currently moving
toward 5000 from position 1200. -/
def chanB : Channel :=
  { position := 1200, target := some 5000, moving := true, limMin := 0, limMax := 10000 }

/-- Example connected daemon state with two channels and no mutating
command in flight. -/
def idleState : DaemonState :=
  { connected := true, busy := false, channels := [chanA, chanB] }

/-- Example connected daemon state with a mutating command in flight. -/
def busyState : DaemonState :=
  { connected := true, busy := true, channels := [chanA] }

/-- Example parsed configuration document satisfying CONFIG_SCHEMA, with
one temperature probe. -/
def cfgJsonA : Json := Json.obj
  [("daemon", Json.str "multichannel_focus_daemon"),
   ("log_name", Json.str "focusd"),
   ("control_machines", Json.arr [Json.str "TCSMachine"]),
   ("serial_port", Json.str "/dev/focuser"),
   ("serial_baud", Json.num 115200),
   ("serial_timeout", Json.num 5),
   ("channels", Json.num 2),
   ("idle_loop_delay", Json.num 60),
   ("moving_loop_delay", Json.num 5),
   ("move_timeout", Json.num 180),
   ("temperature_probes", Json.obj
     [("probe1", Json.obj [("label", Json.str "Focuser"),
                           ("address", Json.str "28FFABCDEF123456")])])]

/-- Configuration object that the constructor extracts from cfgJsonA. -/
def cfgA : Config :=
  { daemon := "multichannel_focus_daemon", log_name := "focusd",
    control_ips := ["TCSMachine"], serial_port := "/dev/focuser",
    serial_baud := 115200, serial_timeout := 5, channels := 2,
    idle_loop_delay := 60, moving_loop_delay := 5, move_timeout := 180,
    temperature_probes := Json.obj
      [("probe1", Json.obj [("label", Json.str "Focuser"),
                            ("address", Json.str "28FFABCDEF123456")])] }

/-- Example document violating the serial_baud pin of CONFIG_SCHEMA. -/
def cfgJsonBadBaud : Json := Json.obj
  [("daemon", Json.str "multichannel_focus_daemon"),
   ("log_name", Json.str "focusd"),
   ("control_machines", Json.arr [Json.str "TCSMachine"]),
   ("serial_port", Json.str "/dev/focuser"),
   ("serial_baud", Json.num 9600),
   ("serial_timeout", Json.num 5),
   ("channels", Json.num 2),
   ("idle_loop_delay", Json.num 60),
   ("moving_loop_delay", Json.num 5),
   ("move_timeout", Json.num 180)]

/-- Exact rational 2.7, an example non integral serial timeout. -/
def ratTwoPointSeven : Rat := ⟨27, 10, by decide, by decide⟩

/-- Exact rational 1.5, an example non integral channel count. -/
def ratOnePointFive : Rat := ⟨3, 2, by decide, by decide⟩

/-- Example parsed configuration document satisfying CONFIG_SCHEMA with a
non integral channel count and serial timeout and no temperature_probes
key. -/
def cfgJsonB : Json := Json.obj
  [("daemon", Json.str "multichannel_focus_daemon"),
   ("log_name", Json.str "focusd"),
   ("control_machines", Json.arr [Json.str "TCSMachine"]),
   ("serial_port", Json.str "/dev/focuser"),
   ("serial_baud", Json.num 115200),
   ("serial_timeout", Json.num ratTwoPointSeven),
   ("channels", Json.num ratOnePointFive),
   ("idle_loop_delay", Json.num 60),
   ("moving_loop_delay", Json.num 5),
   ("move_timeout", Json.num 180)]

/-- Configuration object that the constructor extracts from cfgJsonB. -/
def cfgB : Config :=
  { daemon := "multichannel_focus_daemon", log_name := "focusd",
    control_ips := ["TCSMachine"], serial_port := "/dev/focuser",
    serial_baud := 115200, serial_timeout := 2, channels := ratOnePointFive,
    idle_loop_delay := 60, moving_loop_delay := 5, move_timeout := 180,
    temperature_probes := Json.obj [] }

/-! Helper lemmas. -/

theorem lookup_mem {α β : Type} [BEq α] [LawfulBEq α] {l : List (α × β)} {k : α} {v : β}
    (h : l.lookup k = some v) : (k, v) ∈ l := by
  induction l with
  | nil => simp [List.lookup] at h
  | cons p t ih =>
    obtain ⟨a, b⟩ := p
    rw [List.lookup] at h
    by_cases hk : k = a
    · subst hk
      simp at h
      simp [h]
    · have : (k == a) = false := by simp [hk]
      rw [this] at h
      exact List.mem_cons_of_mem _ (ih h)

theorem moveLoop_not_reached (ch : Nat) (target : Int) (readback : Nat → Int) :
    ∀ fuel i pos, (∀ j, j < fuel → readback (i + j) ≠ target) →
      (moveLoop ch target pos readback i fuel).1 = CommandStatus.Failed ∧
      (moveLoop ch target pos readback i fuel).2.1 =
        (if fuel = 0 then pos else readback (i + (fuel - 1))) := by
  intro fuel
  induction fuel with
  | zero => intro i pos h; simp [moveLoop]
  | succ n ih =>
    intro i pos h
    have h0 : readback i ≠ target := by
      have := h 0 (Nat.succ_pos n)
      simpa using this
    rw [moveLoop]
    simp only [h0, if_false]
    have hrec := ih (i + 1) (readback i) (fun j hj => by
      have := h (j + 1) (Nat.succ_lt_succ hj)
      simpa [Nat.add_assoc, Nat.add_comm 1 j] using this)
    refine ⟨hrec.1, ?_⟩
    rw [hrec.2]
    cases n with
    | zero => simp
    | succ m =>
      simp only [Nat.succ_ne_zero, if_false]
      congr 1
      omega

theorem moveLoop_reached (ch : Nat) (target : Int) (readback : Nat → Int) :
    ∀ fuel i pos, (∃ j, j < fuel ∧ readback (i + j) = target) →
      (moveLoop ch target pos readback i fuel).1 = CommandStatus.Succeeded ∧
      (moveLoop ch target pos readback i fuel).2.1 = target := by
  intro fuel
  induction fuel with
  | zero => intro i pos h; obtain ⟨j, hj, _⟩ := h; omega
  | succ n ih =>
    intro i pos h
    by_cases h0 : readback i = target
    · rw [moveLoop]
      simp [h0]
    · rw [moveLoop]
      simp only [h0, if_false]
      obtain ⟨j, hj, hje⟩ := h
      cases j with
      | zero => simp at hje; omega
      | succ m =>
        exact ih (i + 1) (readback i) ⟨m, by omega, by
          have : i + 1 + m = i + (m + 1) := by omega
          rw [this]; exact hje⟩

theorem moveLoop_fst_cases (ch : Nat) (target : Int) (readback : Nat → Int) :
    ∀ fuel i pos, (moveLoop ch target pos readback i fuel).1 = CommandStatus.Failed ∨
      (moveLoop ch target pos readback i fuel).1 = CommandStatus.Succeeded := by
  intro fuel
  induction fuel with
  | zero => intro i pos; left; simp [moveLoop]
  | succ n ih =>
    intro i pos
    rw [moveLoop]
    by_cases h0 : readback i = target
    · right; simp [h0]
    · simp only [h0, if_false]
      exact ih (i + 1) (readback i)

theorem Json.getStr_eq_some {v : Json} {s : String} :
    v.getStr = some s ↔ v = Json.str s := by
  cases v <;> simp [Json.getStr]

theorem Json.getNum_eq_some {v : Json} {q : Rat} :
    v.getNum = some q ↔ v = Json.num q := by
  cases v <;> simp [Json.getNum]

theorem config_init_ok {dn mn : String → Bool} {j : Json} {cfg : Config}
    (h : Config.init dn mn j = Except.ok cfg) :
    ∃ kvs, j = Json.obj kvs ∧ validateConfig dn mn j = true ∧
      Config.ofValidated kvs = some cfg := by
  unfold Config.init at h
  split at h
  · rename_i hv
    split at h
    · rename_i kvs
      split at h
      · rename_i c hc
        cases h
        exact ⟨kvs, rfl, hv, hc⟩
      · cases h
    · cases h
  · cases h

theorem ofValidated_proj {kvs : List (String × Json)} {cfg : Config}
    (h : Config.ofValidated kvs = some cfg) :
    (∃ q, kvs.lookup "serial_baud" = some (Json.num q) ∧ cfg.serial_baud = pyInt q) ∧
    (∃ q, kvs.lookup "serial_timeout" = some (Json.num q) ∧ cfg.serial_timeout = pyInt q) ∧
    (∃ q, kvs.lookup "channels" = some (Json.num q) ∧ cfg.channels = q) ∧
    (∃ q, kvs.lookup "idle_loop_delay" = some (Json.num q) ∧ cfg.idle_loop_delay = pyInt q) ∧
    (∃ q, kvs.lookup "moving_loop_delay" = some (Json.num q) ∧ cfg.moving_loop_delay = pyInt q) ∧
    (∃ q, kvs.lookup "move_timeout" = some (Json.num q) ∧ cfg.move_timeout = pyInt q) ∧
    cfg.temperature_probes = (kvs.lookup "temperature_probes").getD (Json.obj []) := by
  simp only [Config.ofValidated, bind, Option.bind_eq_some, Json.getStr_eq_some,
    Json.getNum_eq_some, exists_and_left, exists_and_right, exists_eq_left,
    exists_eq_right, Option.some.injEq] at h
  obtain ⟨d, hd, l, hl, ms, hms, sp, hsp, qb, hqb, qt, hqt, qc, hqc, qi, hqi,
    qm, hqm, qmt, hqmt, hcfg⟩ := h
  subst hcfg
  refine ⟨⟨qb, hqb, rfl⟩, ⟨qt, hqt, rfl⟩, ⟨qc, hqc, rfl⟩, ⟨qi, hqi, rfl⟩,
    ⟨qm, hqm, rfl⟩, ⟨qmt, hqmt, rfl⟩, rfl⟩

theorem checkNumRange_num {v : Json} {lo hi : Rat} (h : checkNumRange lo hi v = true) :
    ∃ q, v = Json.num q ∧ lo ≤ q ∧ q ≤ hi := by
  cases v <;> simp [checkNumRange] at h
  case num q => exact ⟨q, rfl, h⟩

theorem checkNumMin_num {v : Json} {lo : Rat} (h : checkNumMin lo v = true) :
    ∃ q, v = Json.num q ∧ lo ≤ q := by
  cases v <;> simp [checkNumMin] at h
  case num q => exact ⟨q, rfl, h⟩

theorem checkProbes_members {v : Json} (h : checkProbes v = true) :
    ∃ ps, v = Json.obj ps ∧ ∀ p ∈ ps, checkProbe p.2 = true := by
  cases v <;> simp [checkProbes, List.all_eq_true] at h
  case obj ps => exact ⟨ps, rfl, fun p hp => h p.1 p.2 hp⟩

theorem checkProbe_address {v : Json} (h : checkProbe v = true) :
    ∃ akvs a, v = Json.obj akvs ∧ akvs.lookup "address" = some (Json.str a) ∧
      a.length = 16 := by
  cases v <;> simp only [checkProbe] at h
  case obj akvs =>
    simp only [Bool.and_eq_true] at h
    obtain ⟨-, ha⟩ := h
    rcases hw : akvs.lookup "address" with _ | w
    · rw [hw] at ha; simp at ha
    · rw [hw] at ha
      cases w <;> simp at ha
      case str a => exact ⟨akvs, a, rfl, hw, ha⟩
  all_goals simp at h

theorem checkProbe_false_of_bad_address {akvs : List (String × Json)} {a : String}
    (hl : akvs.lookup "address" = some (Json.str a)) (hlen : a.length ≠ 16) :
    checkProbe (Json.obj akvs) = false := by
  rw [checkProbe, hl]
  simp [hlen]

theorem validateConfig_false_of_bad {dn mn : String → Bool} {kvs : List (String × Json)}
    {k : String} {v : Json} (hmem : (k, v) ∈ kvs)
    (hbad : checkProperty dn mn k v = false) :
    validateConfig dn mn (Json.obj kvs) = false := by
  have hall : kvs.all (fun kv => checkProperty dn mn kv.1 kv.2) = false :=
    List.all_eq_false.mpr ⟨(k, v), hmem, by simp [hbad]⟩
  simp [validateConfig, hall]

theorem init_error_of_invalid {dn mn : String → Bool} {j : Json}
    (h : validateConfig dn mn j = false) :
    Config.init dn mn j = Except.error "invalid config" := by
  simp [Config.init, h]

/-! Claims. -/

/-- C1 as stated is false: a move naming a channel outside the configured
range that arrives while a mutating command is already in flight is
rejected with Blocked = 2, not InvalidChannel = 4, because the dispatcher
gates contention before argument validation; the same happens to an out
of range position. -/
theorem c1_counterexample :
    (move busyState 5 0 (fun _ => 0) 1).1 = CommandStatus.Blocked ∧
    CommandStatus.Blocked ≠ CommandStatus.InvalidChannel ∧
    (move busyState 0 20000 (fun _ => 0) 1).1 = CommandStatus.Blocked ∧
    CommandStatus.Blocked ≠ CommandStatus.PositionOutsideLimits := by
  exact ⟨rfl, by decide, rfl, by decide⟩

/-- C1 amended: for every move arriving when no mutating command is in
flight and the daemon is connected, a channel outside the configured
range is rejected with InvalidChannel = 4 and a position outside the soft
limits of the channel with PositionOutsideLimits = 6, in both cases
before any serial transaction and with no state change. -/
theorem c1_move_validation (s : DaemonState) (channel : Nat) (position : Int)
    (readback : Nat → Int) (fuel : Nat)
    (hb : s.busy = false) (hc : s.connected = true) :
    (s.channels.length ≤ channel →
      move s channel position readback fuel = (CommandStatus.InvalidChannel, s, [])) ∧
    (∀ ch, s.channels[channel]? = some ch →
      (position < ch.limMin ∨ ch.limMax < position) →
      move s channel position readback fuel = (CommandStatus.PositionOutsideLimits, s, [])) := by
  constructor
  · intro hlen
    have : s.channels[channel]? = none := List.getElem?_eq_none hlen
    simp [move, hb, hc, this]
  · intro ch hch hout
    rcases hout with hlt | hgt
    · simp [move, hb, hc, hch, hlt]
    · simp [move, hb, hc, hch, hgt]

/-- Witness for C1 amended at concrete inputs: channel 5 of a two channel
state is invalid, and position 20000 lies above the 10000 upper soft
limit of channel 0. -/
theorem c1_move_validation_witness :
    move idleState 5 0 (fun _ => 0) 1 = (CommandStatus.InvalidChannel, idleState, []) ∧
    move idleState 0 20000 (fun _ => 0) 1 =
      (CommandStatus.PositionOutsideLimits, idleState, []) :=
  ⟨(c1_move_validation idleState 5 0 (fun _ => 0) 1 rfl rfl).1 (by decide),
   (c1_move_validation idleState 0 20000 (fun _ => 0) 1 rfl rfl).2 chanA rfl
     (Or.inr (by decide))⟩

/-- C2: the in flight mutating work of any state is the single busy slot,
so at most one mutating operation is ever in flight; and a mutating
request, move, connect or disconnect, arriving at a state where one is
active returns Blocked = 2 at once, regardless of the channel it targets,
with no state change and no serial transaction. -/
theorem c2_mutating_serialized :
    (∀ s : DaemonState, s.inFlight ≤ 1) ∧
    (∀ s : DaemonState, s.busy = true →
      ∀ channel position readback fuel init,
        move s channel position readback fuel = (CommandStatus.Blocked, s, []) ∧
        connect s init = (CommandStatus.Blocked, s, []) ∧
        disconnect s = (CommandStatus.Blocked, s, [])) := by
  constructor
  · intro s
    unfold DaemonState.inFlight
    split <;> omega
  · intro s hb channel position readback fuel init
    refine ⟨?_, ?_, ?_⟩ <;> simp [move, connect, disconnect, hb]

/-- Witness for C2 at a concrete busy state: a second move targeting a
valid channel, a second move targeting another channel, a connect and a
disconnect are all rejected with Blocked and leave the state unchanged. -/
theorem c2_mutating_serialized_witness :
    move busyState 0 5000 (fun _ => 0) 4 = (CommandStatus.Blocked, busyState, []) ∧
    move busyState 1 5000 (fun _ => 0) 4 = (CommandStatus.Blocked, busyState, []) ∧
    connect busyState [chanA] = (CommandStatus.Blocked, busyState, []) ∧
    disconnect busyState = (CommandStatus.Blocked, busyState, []) :=
  ⟨(c2_mutating_serialized.2 busyState rfl 0 5000 (fun _ => 0) 4 [chanA]).1,
   (c2_mutating_serialized.2 busyState rfl 1 5000 (fun _ => 0) 4 [chanA]).1,
   (c2_mutating_serialized.2 busyState rfl 1 5000 (fun _ => 0) 4 [chanA]).2.1,
   (c2_mutating_serialized.2 busyState rfl 1 5000 (fun _ => 0) 4 [chanA]).2.2⟩

/-- C3: an accepted move whose position readback equals the target within
the poll budget derived from move_timeout returns Succeeded = 0 to the
waiting caller and leaves the channel idle at the target; one whose
readbacks never equal the target within the budget returns Failed = 1 and
leaves the channel idle at the last successful readback, not at the
unattained target. In both cases the moving flag of the channel is
cleared and no mutating command remains in flight. -/
theorem c3_move_terminal (s : DaemonState) (channel : Nat) (position : Int)
    (readback : Nat → Int) (fuel : Nat) (ch : Channel)
    (hb : s.busy = false) (hc : s.connected = true)
    (hch : s.channels[channel]? = some ch)
    (hlo : ch.limMin ≤ position) (hhi : position ≤ ch.limMax) :
    ((∃ j, j < fuel ∧ readback j = position) →
      (move s channel position readback fuel).1 = CommandStatus.Succeeded ∧
      (move s channel position readback fuel).2.1.channels[channel]?.map Channel.moving =
        some false ∧
      (move s channel position readback fuel).2.1.channels[channel]?.map Channel.position =
        some position ∧
      (move s channel position readback fuel).2.1.busy = false) ∧
    ((∀ j, j < fuel → readback j ≠ position) → 1 ≤ fuel →
      (move s channel position readback fuel).1 = CommandStatus.Failed ∧
      (move s channel position readback fuel).2.1.channels[channel]?.map Channel.moving =
        some false ∧
      (move s channel position readback fuel).2.1.channels[channel]?.map Channel.position =
        some (readback (fuel - 1)) ∧
      (move s channel position readback fuel).2.1.busy = false) := by
  have hlen : channel < s.channels.length := (List.getElem?_eq_some.mp hch).1
  have hacc : (decide (position < ch.limMin) || decide (ch.limMax < position)) = false := by
    simp; omega
  have hset : ∀ c : Channel,
      ((s.channels.set channel c)[channel]?) = some c :=
    fun c => List.getElem?_set_self (by simpa using hlen)
  constructor
  · intro hreach
    have h := moveLoop_reached channel position readback fuel 0 ch.position
      (by obtain ⟨j, hj, he⟩ := hreach; exact ⟨j, hj, by simpa using he⟩)
    simp only [move, hb, hc, hch, hacc, Bool.not_true, if_false]
    simp [h.1, h.2, hset]
  · intro hmiss hfuel
    have h := moveLoop_not_reached channel position readback fuel 0 ch.position
      (fun j hj => by simpa using hmiss j hj)
    simp only [move, hb, hc, hch, hacc, Bool.not_true, if_false]
    have hne : fuel ≠ 0 := by omega
    simp [h.1, h.2, hset, hne]

/-- Witness for C3: on the concrete idle state, a move of channel 0 to
3000 whose first readback is 3000 succeeds and records 3000, while one
whose readbacks stay at 7 exhausts a budget of 2 polls, fails, and
records 7. -/
theorem c3_move_terminal_witness :
    (move idleState 0 3000 (fun _ => 3000) 1).1 = CommandStatus.Succeeded ∧
    (move idleState 0 3000 (fun _ => 3000) 1).2.1.channels[0]?.map Channel.position =
      some 3000 ∧
    (move idleState 0 3000 (fun _ => 7) 2).1 = CommandStatus.Failed ∧
    (move idleState 0 3000 (fun _ => 7) 2).2.1.channels[0]?.map Channel.position =
      some 7 ∧
    (move idleState 0 3000 (fun _ => 7) 2).2.1.channels[0]?.map Channel.moving =
      some false := by
  have hs := (c3_move_terminal idleState 0 3000 (fun _ => 3000) 1 chanA rfl rfl rfl
    (by decide) (by decide)).1 ⟨0, by decide, rfl⟩
  have hf := (c3_move_terminal idleState 0 3000 (fun _ => 7) 2 chanA rfl rfl rfl
    (by decide) (by decide)).2 (fun j hj => by decide) (by decide)
  exact ⟨hs.1, hs.2.2.1, hf.1, hf.2.2.1, hf.2.1⟩

/-- C4: after a disconnect accepted from a connected quiescent state,
every subsequent command other than connect, here move, stop and a second
disconnect, returns NotConnected = 7 without issuing any serial
transaction and without changing state; and a connect arriving while
already connected, with no intervening disconnect, returns the code 8
that the constants module binds for that condition. -/
theorem c4_connection_lifecycle (s : DaemonState)
    (hb : s.busy = false) (hc : s.connected = true) :
    (∀ channel position readback fuel,
      move (disconnect s).2.1 channel position readback fuel =
        (CommandStatus.NotConnected, (disconnect s).2.1, [])) ∧
    (∀ channel, stop (disconnect s).2.1 channel =
      (CommandStatus.NotConnected, (disconnect s).2.1, [])) ∧
    (disconnect (disconnect s).2.1 =
      (CommandStatus.NotConnected, (disconnect s).2.1, [])) ∧
    (∀ init, connect s init = (CommandStatus.NotDisconnected, s, [])) ∧
    CommandStatus.NotDisconnected = 8 ∧ CommandStatus.NotConnected = 7 := by
  have hd : (disconnect s).2.1 = { connected := false, busy := false, channels := [] } := by
    simp [disconnect, hb, hc]
  refine ⟨?_, ?_, ?_, ?_, rfl, rfl⟩
  · intro channel position readback fuel
    rw [hd]
    simp [move]
  · intro channel
    rw [hd]
    simp [stop]
  · rw [hd]
    simp [disconnect]
  · intro init
    simp [connect, hb, hc]

/-- Witness for C4 at the concrete connected idle state. -/
theorem c4_connection_lifecycle_witness :
    move (disconnect idleState).2.1 0 5000 (fun _ => 0) 4 =
      (CommandStatus.NotConnected, (disconnect idleState).2.1, []) ∧
    stop (disconnect idleState).2.1 0 =
      (CommandStatus.NotConnected, (disconnect idleState).2.1, []) ∧
    disconnect (disconnect idleState).2.1 =
      (CommandStatus.NotConnected, (disconnect idleState).2.1, []) ∧
    connect idleState [chanA, chanB] = (CommandStatus.NotDisconnected, idleState, []) :=
  ⟨(c4_connection_lifecycle idleState rfl rfl).1 0 5000 (fun _ => 0) 4,
   (c4_connection_lifecycle idleState rfl rfl).2.1 0,
   (c4_connection_lifecycle idleState rfl rfl).2.2.1,
   (c4_connection_lifecycle idleState rfl rfl).2.2.2.1 [chanA, chanB]⟩

/-- C5 as stated is false at the name it gives code 8: the CommandStatus
class of constants.py binds the value 8 to an attribute named
NotDisconnected; no attribute of the class is named AlreadyConnected. -/
theorem c5_counterexample :
    (∀ p ∈ CommandStatus.codeNames, p.1 ≠ "AlreadyConnected") ∧
    ("NotDisconnected", (8 : Int)) ∈ CommandStatus.codeNames := by
  decide

/-- C5 amended: the command status vocabulary is exactly the closed value
set 0, 1, 2, 3, 4, 6, 7, 8 under the names Succeeded, Failed, Blocked,
InvalidControlIP, InvalidChannel, PositionOutsideLimits, NotConnected and
NotDisconnected, with code 5 unassigned (the gap preserved), and every
public operation of the dispatcher model returns a value from this closed
set rather than escaping with an exception. -/
theorem c5_code_vocabulary :
    CommandStatus.codeNames.map Prod.snd = [0, 1, 2, 3, 4, 6, 7, 8] ∧
    (∀ p ∈ CommandStatus.codeNames, p.2 ≠ 5) ∧
    (∀ s channel position readback fuel,
      (move s channel position readback fuel).1 ∈ CommandStatus.codeNames.map Prod.snd) ∧
    (∀ s init, (connect s init).1 ∈ CommandStatus.codeNames.map Prod.snd) ∧
    (∀ s, (disconnect s).1 ∈ CommandStatus.codeNames.map Prod.snd) ∧
    (∀ s channel, (stop s channel).1 ∈ CommandStatus.codeNames.map Prod.snd) := by
  refine ⟨rfl, by decide, ?_, ?_, ?_, ?_⟩
  · intro s channel position readback fuel
    unfold move
    split
    · simp [CommandStatus.codeNames, CommandStatus.Blocked]
    · split
      · simp [CommandStatus.codeNames, CommandStatus.NotConnected]
      · split
        · simp [CommandStatus.codeNames, CommandStatus.InvalidChannel]
        · rename_i ch heq
          split
          · simp [CommandStatus.codeNames, CommandStatus.PositionOutsideLimits]
          · rcases moveLoop_fst_cases channel position readback fuel 0 ch.position with h | h <;>
              simp [h, CommandStatus.codeNames, CommandStatus.Failed, CommandStatus.Succeeded]
  · intro s init
    unfold connect
    split
    · simp [CommandStatus.codeNames, CommandStatus.Blocked]
    · split
      · simp [CommandStatus.codeNames, CommandStatus.NotDisconnected]
      · simp [CommandStatus.codeNames, CommandStatus.Succeeded]
  · intro s
    unfold disconnect
    split
    · simp [CommandStatus.codeNames, CommandStatus.Blocked]
    · split
      · simp [CommandStatus.codeNames, CommandStatus.NotConnected]
      · simp [CommandStatus.codeNames, CommandStatus.Succeeded]
  · intro s channel
    unfold stop
    split
    · simp [CommandStatus.codeNames, CommandStatus.NotConnected]
    · split
      · split
        · simp [CommandStatus.codeNames, CommandStatus.Succeeded]
        · simp [CommandStatus.codeNames, CommandStatus.Succeeded]
      · simp [CommandStatus.codeNames, CommandStatus.Succeeded]

/-- C6: every configuration object the constructor produces satisfies the
schema invariants: serial_baud is exactly 115200, the channel count is at
least 1, and every configured temperature probe address is a string of
exactly 16 characters; and a document violating any one of the three is
rejected with an error, producing no configuration object. -/
theorem c6_config_invariants (dn mn : String → Bool) (j : Json) :
    (∀ cfg, Config.init dn mn j = Except.ok cfg →
      cfg.serial_baud = 115200 ∧
      (1 : Rat) ≤ cfg.channels ∧
      ∀ pkvs, cfg.temperature_probes = Json.obj pkvs →
        ∀ p ∈ pkvs, ∃ akvs a, p.2 = Json.obj akvs ∧
          akvs.lookup "address" = some (Json.str a) ∧ a.length = 16) ∧
    (∀ kvs q, j = Json.obj kvs → kvs.lookup "serial_baud" = some (Json.num q) →
      q ≠ 115200 → ∃ e, Config.init dn mn j = Except.error e) ∧
    (∀ kvs q, j = Json.obj kvs → kvs.lookup "channels" = some (Json.num q) →
      q < 1 → ∃ e, Config.init dn mn j = Except.error e) ∧
    (∀ kvs pkvs k p akvs a, j = Json.obj kvs →
      kvs.lookup "temperature_probes" = some (Json.obj pkvs) → (k, p) ∈ pkvs →
      p = Json.obj akvs → akvs.lookup "address" = some (Json.str a) →
      a.length ≠ 16 → ∃ e, Config.init dn mn j = Except.error e) := by
  refine ⟨?_, ?_, ?_, ?_⟩
  · intro cfg hok
    obtain ⟨kvs, rfl, hv, hov⟩ := config_init_ok hok
    have hall : ∀ kv ∈ kvs, checkProperty dn mn kv.1 kv.2 = true := by
      rw [validateConfig] at hv
      simp only [Bool.and_eq_true, List.all_eq_true] at hv
      exact hv.2
    obtain ⟨⟨qb, hqb, hsb⟩, -, ⟨qc, hqc, hsc⟩, -, -, -, hprobes⟩ := ofValidated_proj hov
    refine ⟨?_, ?_, ?_⟩
    · have hm : checkNumRange 115200 115200 (Json.num qb) = true :=
        hall ("serial_baud", Json.num qb) (lookup_mem hqb)
      obtain ⟨q, hq, hle, hge⟩ := checkNumRange_num hm
      have hq115 : qb = 115200 := by
        cases hq
        exact le_antisymm hge hle
      rw [hsb, hq115]
      decide
    · have hm : checkNumMin 1 (Json.num qc) = true :=
        hall ("channels", Json.num qc) (lookup_mem hqc)
      obtain ⟨q, hq, hle⟩ := checkNumMin_num hm
      cases hq
      rw [hsc]
      exact hle
    · intro pkvs hpk p hp
      rcases hl : kvs.lookup "temperature_probes" with _ | v
      · rw [hl] at hprobes
        simp only [Option.getD_none] at hprobes
        rw [hprobes] at hpk
        injection hpk with hpk
        subst hpk
        cases hp
      · rw [hl] at hprobes
        simp only [Option.getD_some] at hprobes
        have hm : checkProbes v = true :=
          hall ("temperature_probes", v) (lookup_mem hl)
        obtain ⟨ps, hps, hpall⟩ := checkProbes_members hm
        rw [hprobes, hps] at hpk
        injection hpk with hpk
        subst hpk
        exact checkProbe_address (hpall p hp)
  · intro kvs q hj hlook hne
    subst hj
    have hbad : checkProperty dn mn "serial_baud" (Json.num q) = false := by
      show checkNumRange 115200 115200 (Json.num q) = false
      simp only [checkNumRange, Bool.and_eq_false_iff, decide_eq_false_iff_not, not_le]
      rcases lt_or_gt_of_ne hne with hlt | hgt
      · left; exact hlt
      · right; exact hgt
    exact ⟨_, init_error_of_invalid (validateConfig_false_of_bad (lookup_mem hlook) hbad)⟩
  · intro kvs q hj hlook hlt
    subst hj
    have hbad : checkProperty dn mn "channels" (Json.num q) = false := by
      show checkNumMin 1 (Json.num q) = false
      simp only [checkNumMin, decide_eq_false_iff_not, not_le]
      exact hlt
    exact ⟨_, init_error_of_invalid (validateConfig_false_of_bad (lookup_mem hlook) hbad)⟩
  · intro kvs pkvs k p akvs a hj hlook hmem hp hal hlen
    subst hj
    subst hp
    have hbad : checkProperty dn mn "temperature_probes" (Json.obj pkvs) = false := by
      show checkProbes (Json.obj pkvs) = false
      rw [checkProbes]
      exact List.all_eq_false.mpr ⟨(k, Json.obj akvs), hmem,
        by simp [checkProbe_false_of_bad_address hal hlen]⟩
    exact ⟨_, init_error_of_invalid (validateConfig_false_of_bad (lookup_mem hlook) hbad)⟩

/-- Witness for C6: on the concrete valid document the constructor
produces a configuration with serial_baud 115200 and channel count at
least 1, and on the document pinning serial_baud to 9600 it fails with an
error. -/
theorem c6_config_invariants_witness :
    cfgA.serial_baud = 115200 ∧ (1 : Rat) ≤ cfgA.channels ∧
    (∃ e, Config.init (fun _ => true) (fun _ => true) cfgJsonBadBaud = Except.error e) := by
  have hok : Config.init (fun _ => true) (fun _ => true) cfgJsonA = Except.ok cfgA := by rfl
  have h1 := (c6_config_invariants (fun _ => true) (fun _ => true) cfgJsonA).1 cfgA hok
  refine ⟨h1.1, h1.2.1, ?_⟩
  exact (c6_config_invariants (fun _ => true) (fun _ => true) cfgJsonBadBaud).2.1
    [("daemon", Json.str "multichannel_focus_daemon"),
     ("log_name", Json.str "focusd"),
     ("control_machines", Json.arr [Json.str "TCSMachine"]),
     ("serial_port", Json.str "/dev/focuser"),
     ("serial_baud", Json.num 9600),
     ("serial_timeout", Json.num 5),
     ("channels", Json.num 2),
     ("idle_loop_delay", Json.num 60),
     ("moving_loop_delay", Json.num 5),
     ("move_timeout", Json.num 180)] 9600 rfl rfl (by decide)

/-- C7: FocuserStatus.label maps Disabled to OFFLINE and Active to ONLINE,
adds the display emphasis of the status when formatting is requested, and
for every status outside 0 and 1 returns the UNKNOWN text instead of
failing, in both the formatted and unformatted variants. -/
theorem c7_label_total :
    FocuserStatus.label FocuserStatus.Disabled false = "OFFLINE" ∧
    FocuserStatus.label FocuserStatus.Active false = "ONLINE" ∧
    FocuserStatus.label FocuserStatus.Disabled true =
      TFmt.Bold ++ TFmt.Red ++ "OFFLINE" ++ TFmt.Clear ∧
    FocuserStatus.label FocuserStatus.Active true =
      TFmt.Bold ++ "ONLINE" ++ TFmt.Clear ∧
    ∀ s : Int, s ≠ 0 → s ≠ 1 →
      FocuserStatus.label s false = "UNKNOWN" ∧
      FocuserStatus.label s true = TFmt.Red ++ TFmt.Bold ++ "UNKNOWN" ++ TFmt.Clear := by
  refine ⟨rfl, rfl, rfl, rfl, ?_⟩
  intro s h0 h1
  constructor
  · simp [FocuserStatus.label, FocuserStatus.labels, List.lookup,
      beq_eq_false_iff_ne.mpr h0, beq_eq_false_iff_ne.mpr h1]
  · simp [FocuserStatus.label, FocuserStatus.labels, FocuserStatus.formats, List.lookup,
      beq_eq_false_iff_ne.mpr h0, beq_eq_false_iff_ne.mpr h1]

/-- Witness for C7 at the out of range status values 2 and -1. -/
theorem c7_label_total_witness :
    FocuserStatus.label 2 false = "UNKNOWN" ∧
    FocuserStatus.label (-1) true = TFmt.Red ++ TFmt.Bold ++ "UNKNOWN" ++ TFmt.Clear :=
  ⟨(c7_label_total.2.2.2.2 2 (by decide) (by decide)).1,
   (c7_label_total.2.2.2.2 (-1) (by decide) (by decide)).2⟩

/-- C8: stop of a channel that is not moving is a no-op that returns
Succeeded = 0 and changes nothing, hence is idempotent; stop of a moving
channel returns Succeeded, halts the move, and the subsequent status
snapshot shows the channel at its last recorded position with the moving
flag cleared. -/
theorem c8_stop_idempotent (s : DaemonState) (channel : Nat) (ch : Channel)
    (hc : s.connected = true) (hch : s.channels[channel]? = some ch) :
    (ch.moving = false → stop s channel = (CommandStatus.Succeeded, s, [])) ∧
    (ch.moving = true →
      (stop s channel).1 = CommandStatus.Succeeded ∧
      (statusSnapshot (stop s channel).2.1).1[channel]? =
        some { position := ch.position, moving := false } ∧
      stop (stop s channel).2.1 channel = (CommandStatus.Succeeded, (stop s channel).2.1, [])) := by
  have hlen : channel < s.channels.length := (List.getElem?_eq_some.mp hch).1
  constructor
  · intro hm
    simp [stop, hc, hch, hm]
  · intro hm
    have hstop : (stop s channel).2.1 = { s with channels := s.channels.set channel { ch with moving := false, target := none } } := by
      simp [stop, hc, hch, hm]
    have hset : ((s.channels.set channel { ch with moving := false, target := none })[channel]?) = some { ch with moving := false, target := none } :=
      List.getElem?_set_self (by simpa using hlen)
    refine ⟨by simp [stop, hc, hch, hm], ?_, ?_⟩
    · rw [hstop]
      simp [statusSnapshot, List.getElem?_map, hset]
      exact List.getElem?_set_self (by simpa using hlen)
    · rw [hstop]
      simp [stop, hc, hset]

/-- Witness for C8 at the concrete idle state: channel 0 is not moving,
so stop is a no-op; channel 1 is moving toward 5000 from 1200, and after
stop the snapshot shows it at 1200 and not moving. -/
theorem c8_stop_idempotent_witness :
    stop idleState 0 = (CommandStatus.Succeeded, idleState, []) ∧
    (stop idleState 1).1 = CommandStatus.Succeeded ∧
    (statusSnapshot (stop idleState 1).2.1).1[1]? =
      some { position := 1200, moving := false } :=
  ⟨(c8_stop_idempotent idleState 0 chanA rfl rfl).1 rfl,
   ((c8_stop_idempotent idleState 1 chanB rfl rfl).2 rfl).1,
   ((c8_stop_idempotent idleState 1 chanB rfl rfl).2 rfl).2.1⟩

/-- C9: CommandStatus.message is total over the integers and never fails:
for each key of the message table it returns that fixed message, and for
every other integer n, including Succeeded = 0 which has no entry, it
returns the fallback text naming n. -/
theorem c9_message_total :
    CommandStatus.message 1 = "error: command failed" ∧
    CommandStatus.message 2 = "error: another command is already running" ∧
    CommandStatus.message 3 = "error: command not accepted from this IP" ∧
    CommandStatus.message 4 = "error: invalid channel" ∧
    CommandStatus.message 6 = "error: requested position outside channel range" ∧
    CommandStatus.message 7 = "error: focuser is not connected" ∧
    CommandStatus.message 8 = "error: focuser is already connected" ∧
    CommandStatus.message (-100) = "error: terminated by user" ∧
    CommandStatus.message (-101) = "error: unable to communicate with focus daemon" ∧
    ∀ n : Int, (∀ p ∈ CommandStatus.messages, n ≠ p.1) →
      CommandStatus.message n = "error: Unknown error code " ++ toString n := by
  refine ⟨rfl, rfl, rfl, rfl, rfl, rfl, rfl, rfl, rfl, ?_⟩
  intro n hn
  simp only [CommandStatus.messages, List.mem_cons, List.not_mem_nil, or_false,
    forall_eq_or_imp, forall_eq] at hn
  obtain ⟨h1, h2, h3, h4, h6, h7, h8, hm100, hm101⟩ := hn
  simp [CommandStatus.message, CommandStatus.messages, List.lookup,
    beq_eq_false_iff_ne.mpr h1, beq_eq_false_iff_ne.mpr h2,
    beq_eq_false_iff_ne.mpr h3, beq_eq_false_iff_ne.mpr h4,
    beq_eq_false_iff_ne.mpr h6, beq_eq_false_iff_ne.mpr h7,
    beq_eq_false_iff_ne.mpr h8, beq_eq_false_iff_ne.mpr hm100,
    beq_eq_false_iff_ne.mpr hm101]

/-- Witness for C9 at the unassigned code 5 and at Succeeded = 0. -/
theorem c9_message_total_witness :
    CommandStatus.message 5 = "error: Unknown error code 5" ∧
    CommandStatus.message 0 = "error: Unknown error code 0" :=
  ⟨c9_message_total.2.2.2.2.2.2.2.2.2 5 (by decide),
   c9_message_total.2.2.2.2.2.2.2.2.2 0 (by decide)⟩

/-- C10: the constructor coerces serial_baud, serial_timeout,
idle_loop_delay, moving_loop_delay and move_timeout through int(), that
is, truncation toward zero, stores channels as the raw document number
with no integer coercion, and stores temperature_probes as the empty
object when the optional key is absent. -/
theorem c10_config_coercions (dn mn : String → Bool) (kvs : List (String × Json))
    (cfg : Config) (h : Config.init dn mn (Json.obj kvs) = Except.ok cfg) :
    (∀ q, kvs.lookup "serial_baud" = some (Json.num q) → cfg.serial_baud = pyInt q) ∧
    (∀ q, kvs.lookup "serial_timeout" = some (Json.num q) → cfg.serial_timeout = pyInt q) ∧
    (∀ q, kvs.lookup "idle_loop_delay" = some (Json.num q) → cfg.idle_loop_delay = pyInt q) ∧
    (∀ q, kvs.lookup "moving_loop_delay" = some (Json.num q) → cfg.moving_loop_delay = pyInt q) ∧
    (∀ q, kvs.lookup "move_timeout" = some (Json.num q) → cfg.move_timeout = pyInt q) ∧
    (∀ q, kvs.lookup "channels" = some (Json.num q) → cfg.channels = q) ∧
    (kvs.lookup "temperature_probes" = none → cfg.temperature_probes = Json.obj []) := by
  obtain ⟨kvs2, heq, hv, hov⟩ := config_init_ok h
  injection heq with heq
  subst heq
  obtain ⟨⟨qb, hqb, hsb⟩, ⟨qt, hqt, hst⟩, ⟨qc, hqc, hsc⟩, ⟨qi, hqi, hsi⟩,
    ⟨qm, hqm, hsm⟩, ⟨qmt, hqmt, hsmt⟩, hprobes⟩ := ofValidated_proj hov
  refine ⟨?_, ?_, ?_, ?_, ?_, ?_, ?_⟩
  · intro q hq
    rw [hq] at hqb
    injection hqb with hqb
    injection hqb with hqb
    rw [hsb, hqb]
  · intro q hq
    rw [hq] at hqt
    injection hqt with hqt
    injection hqt with hqt
    rw [hst, hqt]
  · intro q hq
    rw [hq] at hqi
    injection hqi with hqi
    injection hqi with hqi
    rw [hsi, hqi]
  · intro q hq
    rw [hq] at hqm
    injection hqm with hqm
    injection hqm with hqm
    rw [hsm, hqm]
  · intro q hq
    rw [hq] at hqmt
    injection hqmt with hqmt
    injection hqmt with hqmt
    rw [hsmt, hqmt]
  · intro q hq
    rw [hq] at hqc
    injection hqc with hqc
    injection hqc with hqc
    rw [hsc, hqc]
  · intro hq
    rw [hq] at hprobes
    simpa using hprobes

/-- Witness for C10: on the concrete valid document with serial_timeout
2.7 and channels 1.5 and the temperature_probes key absent, the stored
serial_timeout is the truncation 2, the stored channel count is the raw
non integral 1.5, and the stored probe map is empty. -/
theorem c10_config_coercions_witness :
    cfgB.serial_timeout = 2 ∧ cfgB.channels = ratOnePointFive ∧
    cfgB.temperature_probes = Json.obj [] ∧ ratOnePointFive.den ≠ 1 := by
  have hok : Config.init (fun _ => true) (fun _ => true) cfgJsonB = Except.ok cfgB := by rfl
  have h := c10_config_coercions (fun _ => true) (fun _ => true)
    [("daemon", Json.str "multichannel_focus_daemon"),
     ("log_name", Json.str "focusd"),
     ("control_machines", Json.arr [Json.str "TCSMachine"]),
     ("serial_port", Json.str "/dev/focuser"),
     ("serial_baud", Json.num 115200),
     ("serial_timeout", Json.num ratTwoPointSeven),
     ("channels", Json.num ratOnePointFive),
     ("idle_loop_delay", Json.num 60),
     ("moving_loop_delay", Json.num 5),
     ("move_timeout", Json.num 180)] cfgB hok
  refine ⟨(h.2.1 ratTwoPointSeven rfl).trans (by decide),
    h.2.2.2.2.2.1 ratOnePointFive rfl, h.2.2.2.2.2.2 rfl, by decide⟩

end Focusd
